import Mathlib

/-!
Verification development for the `pyhcl2` HCL2 evaluator.

This file is a shallow embedding, in Lean 4, of the fragment of
`src/pyhcl2` that the verified properties talk about:

* `values.py`   — the runtime value lattice (`Value` and its subclasses,
  including `Unknown` with its direct/indirect reference sets),
* `eval.py`     — the recursive expression evaluator (`Evaluator.eval`) and
  the evaluation scope,
* `tracker.py`  — the dependency tracker (`resolve_variable_references`),
* `generations.py` — the generation planner (`get_blocks_by_generation`),
* the `Value.infer` host-value lifting helper.

Modelling conventions:

* Python `int` is `Int`; Python `float` is modelled as an exact rational
  (`Rat`).  Every float literal appearing in a theorem below is exactly
  representable, and no theorem relies on rounding behaviour.
* Python `set` objects of hashable `VariableReference` records are
  `Finset VariableReference` (unordered, deduplicated — exactly the
  observable semantics of a Python set of frozen dataclasses).
* Python `dict` objects with `String`-value keys are association lists
  `List (String × Value)` in insertion order.  `String` values compare and
  hash ignoring their `span` field (the dataclass declares
  `span: ... compare=False, hash=False`), so dictionary keys are modelled
  as bare `String`s.
* Exceptions are `Except`: `DiagnosticError` is modelled by its stable
  diagnostic code, Python `TypeError` / `NotImplementedError` by dedicated
  error constructors.
* Mutation of the evaluation scope is modelled by explicit state passing:
  the evaluator receives the scope as a stack of frames and returns the
  updated innermost frame (the source only ever writes through
  `EvaluationScope.__setitem__` of the scope object it was handed, i.e.
  only the innermost frame of the scope in use can change).
-/

/-- `pyagnostics.spans.SourceSpan`: a half-open `[start, end)` byte range.
AST nodes default to `SourceSpan(-1, -1)`, hence `Int` offsets. -/
structure SourceSpan where
  startPos : Int
  endPos : Int
deriving DecidableEq, Repr

/-- `values.VariableReference`: a reference path (components are `str | None`)
together with the span it was discovered at.  The dataclass is `eq=True,
frozen=True`, so both fields participate in equality and hashing. -/
structure VariableReference where
  key : List (Option String)
  span : SourceSpan
deriving DecidableEq, Repr

/-- `values.Value` and its concrete subclasses.  Every value optionally
carries a span (`None` until one is attached); the span field is excluded
from Python equality, but keeping it explicit lets the theorems state span
propagation exactly.  `unknown` is `values.Unknown` with its two reference
sets. -/
inductive Value where
  | null (span : Option SourceSpan)
  | integer (raw : Int) (span : Option SourceSpan)
  | float (raw : Rat) (span : Option SourceSpan)
  | string (raw : String) (span : Option SourceSpan)
  | boolean (raw : Bool) (span : Option SourceSpan)
  | array (raw : List Value) (span : Option SourceSpan)
  | object (raw : List (String × Value)) (span : Option SourceSpan)
  | unknown (direct indirect : Finset VariableReference) (span : Option SourceSpan)

namespace Value

/-- The `span` field shared by every `Value` dataclass. -/
def span : Value → Option SourceSpan
  | .null sp => sp
  | .integer _ sp => sp
  | .float _ sp => sp
  | .string _ sp => sp
  | .boolean _ sp => sp
  | .array _ sp => sp
  | .object _ sp => sp
  | .unknown _ _ sp => sp

/-- `Value.with_span`: `dataclasses.replace(self, span=span)`. -/
def withSpan : Value → Option SourceSpan → Value
  | .null _, sp => .null sp
  | .integer r _, sp => .integer r sp
  | .float r _, sp => .float r sp
  | .string r _, sp => .string r sp
  | .boolean r _, sp => .boolean r sp
  | .array r _, sp => .array r sp
  | .object r _, sp => .object r sp
  | .unknown d i _, sp => .unknown d i sp

/-- `isinstance(v, Unknown)`. -/
def isUnknown : Value → Bool
  | .unknown _ _ _ => true
  | _ => false

/-- `isinstance(v, Array)`. -/
def isArray : Value → Bool
  | .array _ _ => true
  | _ => false

/-- `Value.type_name`: the lower-cased class name, used in diagnostics. -/
def typeName : Value → String
  | .null _ => "null"
  | .integer _ _ => "integer"
  | .float _ _ => "float"
  | .string _ _ => "string"
  | .boolean _ _ => "boolean"
  | .array _ _ => "array"
  | .object _ _ => "object"
  | .unknown _ _ _ => "unknown"

/-- `Unknown.references`: `direct_references | indirect_references`.  On any
other `Value` subclass the property does not exist; the evaluator only reads
it from values known to be `Unknown`, and the set-comprehension in
`Unknown.indirect` skips non-`Unknown` values, which the `∅` default arm
mirrors. -/
def references : Value → Finset VariableReference
  | .unknown d i _ => d ∪ i
  | _ => ∅

end Value

/-- Python dict lookup `d.get(k)` over the insertion-ordered model. -/
def dictGet (d : List (String × Value)) (k : String) : Option Value :=
  match d with
  | [] => none
  | (k', v) :: rest => if k' = k then some v else dictGet rest k

/-- Python dict assignment `d[k] = v`: replaces in place if the key exists,
otherwise appends (insertion order preserved). -/
def dictSet (d : List (String × Value)) (k : String) (v : Value) :
    List (String × Value) :=
  match d with
  | [] => [(k, v)]
  | (k', v') :: rest =>
      if k' = k then (k', v) :: rest else (k', v') :: dictSet rest k v

/-- Union of `Unknown.references` over a list of values (the flattening
set-comprehension in `Unknown.indirect`; non-`Unknown` values contribute
nothing). -/
def unionReferences (values : List Value) : Finset VariableReference :=
  match values with
  | [] => ∅
  | v :: rest => v.references ∪ unionReferences rest

mutual

/-- `Value.resolve`.  The base class returns `self`; `Array.resolve` and
`Object.resolve` resolve their children and, if any resolved child is
`Unknown`, replace the container by `Unknown.indirect(*unknown)` — which,
since every collected child is already a resolved `Unknown`, is the
`Unknown` with empty direct references and the union of the children's
reference sets. -/
def Value.resolve : Value → Value
  | .array items sp =>
      let un := resolveListUnknowns items
      if un.isEmpty then .array items sp
      else .unknown ∅ (unionReferences un) none
  | .object entries sp =>
      let un := resolveEntriesUnknowns entries
      if un.isEmpty then .object entries sp
      else .unknown ∅ (unionReferences un) none
  | v => v

/-- The loop in `Array.resolve`: resolved items that are `Unknown`, in
order. -/
def resolveListUnknowns : List Value → List Value
  | [] => []
  | v :: rest =>
      let rv := Value.resolve v
      if rv.isUnknown then rv :: resolveListUnknowns rest
      else resolveListUnknowns rest

/-- The loop in `Object.resolve`: resolved member values that are `Unknown`,
in order. -/
def resolveEntriesUnknowns : List (String × Value) → List Value
  | [] => []
  | (_, v) :: rest =>
      let rv := Value.resolve v
      if rv.isUnknown then rv :: resolveEntriesUnknowns rest
      else resolveEntriesUnknowns rest

end

/-- `Unknown.indirect(*values)` (a `@staticmethod`): resolve every argument
and return an `Unknown` with no direct references whose indirect set is the
union of the references of the resolved arguments that are `Unknown`. -/
def Unknown.indirect (values : List Value) : Value :=
  .unknown ∅ (unionReferences (values.map Value.resolve)) none

/-- `Unknown.direct(self, span, key)` (an instance method on an `Unknown`
with direct set `d` and indirect set `i`): extend every direct reference
by `key` at `span`, or create the fresh reference `(None, key)` if there are
no direct references; the result's indirect set is `self.references`. -/
def Unknown.direct (d i : Finset VariableReference) (span : SourceSpan)
    (key : String) : Value :=
  let directRefs : Finset VariableReference :=
    if d = ∅ then {⟨[none, some key], span⟩}
    else d.image (fun r => ⟨r.key ++ [some key], span⟩)
  .unknown directRefs (d ∪ i) none

/-- `Unknown.ident(identifier)`: a fresh `Unknown` with the single direct
reference `(identifier.name,)`, carrying the identifier's span both on the
reference and on the value itself. -/
def Unknown.ident (name : String) (span : SourceSpan) : Value :=
  .unknown {⟨[some name], span⟩} ∅ (some span)

/-- The 13 binary operator tokens of `BinaryOperator.type` (a closed
`typing.Literal`), so the operator table lookup in
`Evaluator._eval_binary_expression` is total. -/
inductive BinOp where
  | add | sub | mul | truediv | mod
  | eq | ne | lt | gt | le | ge
  | andOp | orOp
deriving DecidableEq, Repr

/-- Failure modes of a dunder-method application inside
`_eval_binary_expression`'s `try` block: `AttributeError` (the left
operand's class does not define the method), `NotImplementedError` (the
method's default arm), and `ArithmeticError` (zero division). -/
inductive OpFail where
  | attributeError
  | notImplementedError
  | arithmeticError
deriving DecidableEq, Repr

/-- Floor modulo on rationals: Python's `%` on numbers takes the sign of
the divisor (`a - b * floor(a / b)`); caller guards against a zero
divisor. -/
def ratFloorMod (a b : Rat) : Rat :=
  a - b * ⌊a / b⌋

namespace IntegerOps

/-- `Integer.__add__`. -/
def add (a : Int) : Value → Except OpFail Value
  | .integer b _ => .ok (.integer (a + b) none)
  | .float q _ => .ok (.float ((a : Rat) + q) none)
  | _ => .error .notImplementedError

/-- `Integer.__sub__`. -/
def sub (a : Int) : Value → Except OpFail Value
  | .integer b _ => .ok (.integer (a - b) none)
  | .float q _ => .ok (.float ((a : Rat) - q) none)
  | _ => .error .notImplementedError

/-- `Integer.__mul__`. -/
def mul (a : Int) : Value → Except OpFail Value
  | .integer b _ => .ok (.integer (a * b) none)
  | .float q _ => .ok (.float ((a : Rat) * q) none)
  | _ => .error .notImplementedError

/-- `Integer.__truediv__`: true division, producing a `Float`; division by
zero raises `ZeroDivisionError` (an `ArithmeticError`). -/
def truediv (a : Int) : Value → Except OpFail Value
  | .integer b _ =>
      if b = 0 then .error .arithmeticError
      else .ok (.float ((a : Rat) / (b : Rat)) none)
  | .float q _ =>
      if q = 0 then .error .arithmeticError
      else .ok (.float ((a : Rat) / q) none)
  | _ => .error .notImplementedError

/-- `Integer.__mod__`: Python floor modulo; zero divisor raises. -/
def mod (a : Int) : Value → Except OpFail Value
  | .integer b _ =>
      if b = 0 then .error .arithmeticError
      else .ok (.integer (Int.fmod a b) none)
  | .float q _ =>
      if q = 0 then .error .arithmeticError
      else .ok (.float (ratFloorMod (a : Rat) q) none)
  | _ => .error .notImplementedError

/-- `Integer.__equals__`: numeric equality against `Integer`/`Float`, and
`Boolean(False)` for every other operand type. -/
def equalsBool (a : Int) : Value → Bool
  | .integer b _ => a = b
  | .float q _ => (a : Rat) = q
  | _ => false

/-- `Integer.__lt__` / `__gt__` / `__le__` / `__ge__` share this shape. -/
def compare (cmp : Rat → Rat → Bool) (a : Int) : Value → Except OpFail Value
  | .integer b _ => .ok (.boolean (cmp (a : Rat) (b : Rat)) none)
  | .float q _ => .ok (.boolean (cmp (a : Rat) q) none)
  | _ => .error .notImplementedError

end IntegerOps

namespace FloatOps

/-- `Float.__add__`. -/
def add (a : Rat) : Value → Except OpFail Value
  | .integer b _ => .ok (.float (a + (b : Rat)) none)
  | .float q _ => .ok (.float (a + q) none)
  | _ => .error .notImplementedError

/-- `Float.__sub__`. -/
def sub (a : Rat) : Value → Except OpFail Value
  | .integer b _ => .ok (.float (a - (b : Rat)) none)
  | .float q _ => .ok (.float (a - q) none)
  | _ => .error .notImplementedError

/-- `Float.__mul__`. -/
def mul (a : Rat) : Value → Except OpFail Value
  | .integer b _ => .ok (.float (a * (b : Rat)) none)
  | .float q _ => .ok (.float (a * q) none)
  | _ => .error .notImplementedError

/-- `Float.__truediv__`. -/
def truediv (a : Rat) : Value → Except OpFail Value
  | .integer b _ =>
      if b = 0 then .error .arithmeticError
      else .ok (.float (a / (b : Rat)) none)
  | .float q _ =>
      if q = 0 then .error .arithmeticError
      else .ok (.float (a / q) none)
  | _ => .error .notImplementedError

/-- `Float.__mod__`. -/
def mod (a : Rat) : Value → Except OpFail Value
  | .integer b _ =>
      if b = 0 then .error .arithmeticError
      else .ok (.float (ratFloorMod a (b : Rat)) none)
  | .float q _ =>
      if q = 0 then .error .arithmeticError
      else .ok (.float (ratFloorMod a q) none)
  | _ => .error .notImplementedError

/-- `Float.__equals__`. -/
def equalsBool (a : Rat) : Value → Bool
  | .integer b _ => a = (b : Rat)
  | .float q _ => a = q
  | _ => false

/-- `Float.__lt__` / `__gt__` / `__le__` / `__ge__`. -/
def compare (cmp : Rat → Rat → Bool) (a : Rat) : Value → Except OpFail Value
  | .integer b _ => .ok (.boolean (cmp a (b : Rat)) none)
  | .float q _ => .ok (.boolean (cmp a q) none)
  | _ => .error .notImplementedError

end FloatOps

namespace StringOps

/-- `String.__add__`: concatenation with another `String` only. -/
def add (a : String) : Value → Except OpFail Value
  | .string b _ => .ok (.string (a ++ b) none)
  | _ => .error .notImplementedError

/-- `String.__mul__`: Python string repetition by an `Integer`; a
non-positive count yields the empty string. -/
def mul (a : String) : Value → Except OpFail Value
  | .integer b _ =>
      .ok (.string (String.join (List.replicate b.toNat a)) none)
  | _ => .error .notImplementedError

/-- `String.__equals__`. -/
def equalsBool (a : String) : Value → Bool
  | .string b _ => a = b
  | _ => false

end StringOps

namespace BooleanOps

/-- `Boolean.__and__`: defined for `Boolean` operands only. -/
def andMethod (a : Bool) : Value → Except OpFail Value
  | .boolean b _ => .ok (.boolean (a && b) none)
  | _ => .error .notImplementedError

/-- `Boolean.__or__`. -/
def orMethod (a : Bool) : Value → Except OpFail Value
  | .boolean b _ => .ok (.boolean (a || b) none)
  | _ => .error .notImplementedError

/-- `Boolean.__equals__`. -/
def equalsBool (a : Bool) : Value → Bool
  | .boolean b _ => a = b
  | _ => false

end BooleanOps

namespace Value

/-- Whether the value's class defines `__equals__`.  `values.py` defines it
on `Integer`, `Float`, `String` and `Boolean` only; `Null`, `Array`,
`Object` and `Unknown` inherit no such method. -/
def hasEqualsMethod : Value → Bool
  | .integer _ _ => true
  | .float _ _ => true
  | .string _ _ => true
  | .boolean _ _ => true
  | _ => false

/-- The result of `__equals__` on a left operand that defines it. -/
def equalsBool : Value → Value → Bool
  | .integer a _, r => IntegerOps.equalsBool a r
  | .float a _, r => FloatOps.equalsBool a r
  | .string a _, r => StringOps.equalsBool a r
  | .boolean a _, r => BooleanOps.equalsBool a r
  | _, _ => false

/-- `Value.__not_equals__` (defined on the base class, hence on every
value): negate `__equals__` when the left operand's class has it, and
return `Boolean(True)` when the `getattr` raises `AttributeError`. -/
def notEqualsBool (l r : Value) : Bool :=
  if l.hasEqualsMethod then !(l.equalsBool r) else true

/-- `getattr(left, operation)` succeeds: whether the left operand's class
defines the dunder method that `_eval_binary_expression`'s operator table
maps `op` to.  (`__not_equals__` lives on the base class, so it exists for
every value.) -/
def hasBinaryMethod (op : BinOp) : Value → Bool
  | .integer _ _ =>
      match op with
      | .add | .sub | .mul | .truediv | .mod | .eq | .ne
      | .lt | .gt | .le | .ge => true
      | .andOp | .orOp => false
  | .float _ _ =>
      match op with
      | .add | .sub | .mul | .truediv | .mod | .eq | .ne
      | .lt | .gt | .le | .ge => true
      | .andOp | .orOp => false
  | .string _ _ =>
      match op with
      | .add | .mul | .eq | .ne => true
      | _ => false
  | .boolean _ _ =>
      match op with
      | .andOp | .orOp | .eq | .ne => true
      | _ => false
  | _ => op = .ne

/-- `operator(right)`: apply the resolved dunder method of the (concrete)
left operand.  `.error .attributeError` marks the method as undefined on
the left operand's class (callers consult `hasBinaryMethod` first, exactly
like `getattr` in the source). -/
def applyBinary (op : BinOp) (l r : Value) : Except OpFail Value :=
  match op with
  | .eq =>
      if l.hasEqualsMethod then .ok (.boolean (l.equalsBool r) none)
      else .error .attributeError
  | .ne => .ok (.boolean (Value.notEqualsBool l r) none)
  | .add =>
      match l with
      | .integer a _ => IntegerOps.add a r
      | .float a _ => FloatOps.add a r
      | .string a _ => StringOps.add a r
      | _ => .error .attributeError
  | .sub =>
      match l with
      | .integer a _ => IntegerOps.sub a r
      | .float a _ => FloatOps.sub a r
      | _ => .error .attributeError
  | .mul =>
      match l with
      | .integer a _ => IntegerOps.mul a r
      | .float a _ => FloatOps.mul a r
      | .string a _ => StringOps.mul a r
      | _ => .error .attributeError
  | .truediv =>
      match l with
      | .integer a _ => IntegerOps.truediv a r
      | .float a _ => FloatOps.truediv a r
      | _ => .error .attributeError
  | .mod =>
      match l with
      | .integer a _ => IntegerOps.mod a r
      | .float a _ => FloatOps.mod a r
      | _ => .error .attributeError
  | .lt =>
      match l with
      | .integer a _ => IntegerOps.compare (fun x y => x < y) a r
      | .float a _ => FloatOps.compare (fun x y => x < y) a r
      | _ => .error .attributeError
  | .gt =>
      match l with
      | .integer a _ => IntegerOps.compare (fun x y => y < x) a r
      | .float a _ => FloatOps.compare (fun x y => y < x) a r
      | _ => .error .attributeError
  | .le =>
      match l with
      | .integer a _ => IntegerOps.compare (fun x y => x ≤ y) a r
      | .float a _ => FloatOps.compare (fun x y => x ≤ y) a r
      | _ => .error .attributeError
  | .ge =>
      match l with
      | .integer a _ => IntegerOps.compare (fun x y => y ≤ x) a r
      | .float a _ => FloatOps.compare (fun x y => y ≤ x) a r
      | _ => .error .attributeError
  | .andOp =>
      match l with
      | .boolean a _ => BooleanOps.andMethod a r
      | _ => .error .attributeError
  | .orOp =>
      match l with
      | .boolean a _ => BooleanOps.orMethod a r
      | _ => .error .attributeError

end Value

/-- The error channel of the evaluator: `DiagnosticError` (identified by
its stable `pyhcl2::...` code), Python `TypeError`, and the
`NotImplementedError` signal of `Value.infer`. -/
inductive EvalError where
  | diagnostic (code : String)
  | typeError (msg : String)
  | notImplemented (msg : String)
deriving DecidableEq, Repr

/-- `Except` monad computation lemmas used to evaluate the embedded
evaluator inside proofs. -/
theorem exceptBindOk {α β ε : Type} (a : α) (f : α → Except ε β) :
    (Except.ok a >>= f) = f a := rfl

/-- Propagation of an error through `Except.bind`. -/
theorem exceptBindErr {α β ε : Type} (e : ε) (f : α → Except ε β) :
    ((Except.error e : Except ε α) >>= f) = Except.error e := rfl

/-- `pure` on `Except` is `Except.ok`. -/
theorem exceptPureDef {α ε : Type} (a : α) : (pure a : Except ε α) = Except.ok a := rfl

/-- `throw` on `Except` is `Except.error`. -/
theorem exceptThrowDef {α ε : Type} (e : ε) : (throw e : Except ε α) = Except.error e := rfl

/-- `Functor.map` over a successful `Except`. -/
theorem exceptMapOk {α β ε : Type} (a : α) (f : α → β) :
    (f <$> (Except.ok a : Except ε α)) = Except.ok (f a) := rfl

/-- `Functor.map` over a failed `Except`. -/
theorem exceptMapErr {α β ε : Type} (e : ε) (f : α → β) :
    (f <$> (Except.error e : Except ε α)) = Except.error e := rfl

/-- `nodes.GetAttrKey`: wraps the key `Identifier`; the evaluator reads
`key.ident.name` and `key.ident.span`. -/
structure GetAttrKey where
  identName : String
  identSpan : SourceSpan
deriving DecidableEq, Repr

/-- A block label: `Identifier` or `Literal` (only `Literal(String)` labels
contribute to the block's key). -/
inductive Label where
  | identifier (name : String) (span : SourceSpan)
  | literal (value : Value) (span : SourceSpan)

/-- The AST fragment of `nodes.py` that the verified claims exercise.
`Module` is included because `Evaluator.eval` is given `Module` nodes in
one of the claims; node kinds that no claim touches (`UnaryExpression`,
`GetIndex`, function calls, splats, comprehensions other than the ones
modelled elsewhere) are omitted from the fragment.  Every node carries its
span. -/
inductive Node where
  | literal (value : Value) (span : SourceSpan)
  | identifier (name : String) (span : SourceSpan)
  | arrayExpression (values : List Node) (span : SourceSpan)
  | objectExpression (fields : List (Node × Node)) (span : SourceSpan)
  | parenthesis (expr : Node) (span : SourceSpan)
  | binaryExpression (op : BinOp) (opSpan : SourceSpan)
      (left right : Node) (span : SourceSpan)
  | conditional (cond thenExpr elseExpr : Node) (span : SourceSpan)
  | attribute (key : String) (keySpan : SourceSpan)
      (value : Node) (span : SourceSpan)
  | getAttr (obj : Node) (key : GetAttrKey) (span : SourceSpan)
  | block (type : String) (typeSpan : SourceSpan) (labels : List Label)
      (body : List Node) (span : SourceSpan)
  | module (body : List Node) (span : SourceSpan)

namespace Node

/-- The node's source span. -/
def span : Node → SourceSpan
  | .literal _ sp => sp
  | .identifier _ sp => sp
  | .arrayExpression _ sp => sp
  | .objectExpression _ sp => sp
  | .parenthesis _ sp => sp
  | .binaryExpression _ _ _ _ sp => sp
  | .conditional _ _ _ sp => sp
  | .attribute _ _ _ sp => sp
  | .getAttr _ _ sp => sp
  | .block _ _ _ _ sp => sp
  | .module _ sp => sp

end Node

/-- `Block.keys` / `Block.key_path`: the block's type name followed by its
labels' texts; identifier labels contribute their name, string-literal
labels their string, and any other label is dropped.  (`keys` produces
`String` values and `key_path` raw strings; since `String` equality ignores
spans, both are the same list of strings.) -/
def blockKeys (type : String) (labels : List Label) : List String :=
  type :: labels.filterMap fun
    | .identifier n _ => some n
    | .literal (.string s _) _ => some s
    | .literal _ _ => none

/-- One frame of an `EvaluationScope`: its insertion-ordered `variables`
mapping. -/
abbrev Frame := List (String × Value)

/-- An `EvaluationScope` chain, innermost frame first (the parent chain of
the scope the evaluator is using). -/
abbrev Scope := List Frame

/-- `EvaluationScope.__getitem__`: look in the current frame, then fall
through to the parent chain; the evaluator turns the final `KeyError` into
an `Unknown`, so the model returns an `Option`. -/
def scopeLookup : Scope → String → Option Value
  | [], _ => none
  | frame :: parents, name =>
      match dictGet frame name with
      | some v => some v
      | none => scopeLookup parents name

/-- `_evaluate_get_attr(on, on_span, key, scope)` (the span and scope play
no role in the returned value): attribute access from an `Unknown` extends
it via `Unknown.direct`; from an `Object`, return the member or
`Unknown().direct(key.ident.span, key)` when the key is missing; from any
other value, raise `get_attr::unsupported_type`. -/
def evaluateGetAttr (onv : Value) (key : GetAttrKey) :
    Except EvalError Value :=
  match onv with
  | .unknown d i _ => .ok (Unknown.direct d i key.identSpan key.identName)
  | .object entries _ =>
      match dictGet entries key.identName with
      | some v => .ok v
      | none => .ok (Unknown.direct ∅ ∅ key.identSpan key.identName)
  | _ => .error (.diagnostic "pyhcl2::evaluator::get_attr::unsupported_type")

/-- The last element of the non-empty list `x :: xs` (the final component
of a block key path). -/
def lastOf (x : String) (xs : List String) : String :=
  match xs with
  | [] => x
  | y :: ys => lastOf y ys

/-- All but the last element of the non-empty list `x :: xs` (the remaining
intermediate components of a block key path). -/
def dropLastOf (x : String) (xs : List String) : List String :=
  match xs with
  | [] => []
  | y :: ys => x :: dropLastOf y ys

/-- The continuation of `_eval_block`'s weaving loop after a MISSING
intermediate key.  At that point the source executes
`mapping = mapping[key] = Object({})` (eval.py line 156); Python assigns
chained targets left to right, so `mapping` is rebound to the new empty
object BEFORE the subscript store, which therefore writes the object into
itself: the new intermediate is a self-referential orphan, detached from
the outer result, holding exactly one key — the key it was created for
(`selfKey`).  The rest of the descent runs inside orphans: looking up the
orphan's own key finds the self-`Object` and descends into the same orphan;
looking up any other key misses and creates the next orphan.  The final
store (`mapping.get(keys[-1], None)`) then finds the orphan's self-`Object`
when the final component equals the last intermediate's key — raising
`block::key_conflict` — and otherwise misses, storing the fresh array into
the orphan, where it is lost.  Nothing in this descent ever reaches the
outer result, so the caller's mapping is unchanged. -/
def weaveOrphan (selfKey : String) (remaining : List String) (lastKey : String) :
    Except EvalError Unit :=
  match remaining with
  | [] =>
      if lastKey = selfKey then
        .error (.diagnostic "pyhcl2::evaluator::block::key_conflict")
      else .ok ()
  | q :: qs =>
      if q = selfKey then weaveOrphan selfKey qs lastKey
      else weaveOrphan q qs lastKey

/-- The nested-block weaving inside `_eval_block`: descend through all but
the last key component, then at the last component create a one-element
array, append to an existing array, or raise `block::key_conflict`.
Descent into an EXISTING `Object` occupant mutates it in place (modelled as
the functional nested update); any other occupant raises
`block::key_conflict`.  A MISSING intermediate, however, is NOT attached:
`mapping = mapping[key] = Object({})` rebinds `mapping` before the
subscript store (see `weaveOrphan`), so the remaining descent happens
inside orphaned objects and the outer mapping is returned unchanged — the
woven value is silently dropped, unless the orphaned descent ends in
`block::key_conflict`. -/
def weave (key : String) (restKeys : List String)
    (mapping : List (String × Value)) (value : Value) :
    Except EvalError (List (String × Value)) :=
  match restKeys with
  | [] =>
      match dictGet mapping key with
      | none => .ok (dictSet mapping key (.array [value] none))
      | some (.array items sp) =>
          .ok (dictSet mapping key (.array (items ++ [value]) sp))
      | some _ => .error (.diagnostic "pyhcl2::evaluator::block::key_conflict")
  | k2 :: ks =>
      match dictGet mapping key with
      | none => do
          let _ ← weaveOrphan key (dropLastOf k2 ks) (lastOf k2 ks)
          .ok mapping
      | some (.object entries sp) => do
          let sub ← weave k2 ks entries value
          .ok (dictSet mapping key (.object sub sp))
      | some _ => .error (.diagnostic "pyhcl2::evaluator::block::key_conflict")

/-- Every AST node has positive size (used for the termination measure of
the mutually recursive evaluator). -/
theorem Node.sizeOf_pos (n : Node) : 0 < sizeOf n := by
  cases n <;> simp_arith

mutual

/-- `Evaluator.eval`: dispatch on the node kind, then attach the node's
span to the result if the result has none.  The scope is a frame stack;
the returned `Frame` is the (possibly updated) innermost frame.  Node kinds
with no `match` arm in the source — in this fragment, `Module` — fall into
the default arm, `pyhcl2::evaluator::unsupported_node`. -/
def evalNode (node : Node) (scope : Scope) :
    Except EvalError (Value × Frame) := do
  let (result, frame) ← evalDispatch node scope
  pure (if result.span = none then result.withSpan (some node.span) else result,
        frame)
termination_by 2 * sizeOf node + 1

/-- The `match expr` dispatch inside `Evaluator.eval`. -/
def evalDispatch (node : Node) (scope : Scope) :
    Except EvalError (Value × Frame) :=
  match node with
  | .block _ _ _ body _ => do
      -- `_eval_block`: build the object; the block writes nothing into the
      -- scope it was given.
      let result ← evalBlockBody body scope []
      pure (.object result none, scope.headD [])
  | .literal v _ => pure (v, scope.headD [])
  | .arrayExpression values _ => do
      let (items, frame) ← evalNodeList values scope
      pure (.array items none, frame)
  | .objectExpression fields _ => evalObjectFields fields scope [] []
  | .identifier name sp =>
      -- `_eval_identifier`: scope hit, or a fresh direct `Unknown` on miss.
      match scopeLookup scope name with
      | some v => pure (v, scope.headD [])
      | none => pure (Unknown.ident name sp, scope.headD [])
  | .parenthesis e _ => evalNode e scope
  | .binaryExpression op _ l r _ => evalBinaryExpression op l r scope
  | .conditional c t e _ => do
      let (cond, f1) ← evalNode c scope
      match cond with
      | .unknown _ _ _ => do
          let (tv, f2) ← evalNode t (f1 :: scope.tail)
          let (ev, f3) ← evalNode e (f2 :: scope.tail)
          pure (Unknown.indirect [cond, tv, ev], f3)
      | .boolean true _ => evalNode t (f1 :: scope.tail)
      | .boolean false _ => evalNode e (f1 :: scope.tail)
      | _ => throw (.diagnostic "pyhcl2::evaluator::conditional::unsupported_condition")
  | .attribute key _ value _ => do
      -- `_eval_attribute`: evaluate, bind into the given scope, return.
      let (v, f) ← evalNode value scope
      pure (v, dictSet f key v)
  | .getAttr obj key _ => do
      let (onv, f) ← evalNode obj scope
      let res ← evaluateGetAttr onv key
      pure (res, f)
  | .module _ _ =>
      throw (.diagnostic "pyhcl2::evaluator::unsupported_node")
termination_by 2 * sizeOf node

/-- `_eval_binary_expression`.  The operator table lookup is total over
`BinOp`.  Control flow of the source, in order: evaluate the left operand;
if it is `Unknown`, evaluate the right operand and merge both into an
indirect `Unknown`; otherwise resolve the method (`getattr`), evaluate the
right operand, return it unchanged if it is `Unknown`, else apply the
method.  `AttributeError` / `NotImplementedError` are handled by evaluating
the right operand (again, in the latter case) and raising
`unsupported_operator`; `ArithmeticError` raises `arithmetic_error`. -/
def evalBinaryExpression (op : BinOp) (l r : Node) (scope : Scope) :
    Except EvalError (Value × Frame) := do
  let (left, f1) ← evalNode l scope
  if left.isUnknown then
    let (rightv, f2) ← evalNode r (f1 :: scope.tail)
    pure (Unknown.indirect [left, rightv], f2)
  else if left.hasBinaryMethod op then
    let (rightv, f2) ← evalNode r (f1 :: scope.tail)
    if rightv.isUnknown then
      pure (rightv, f2)
    else
      match left.applyBinary op rightv with
      | .ok v => pure (v, f2)
      | .error .arithmeticError => do
          let _ ← evalNode r (f2 :: scope.tail)
          throw (.diagnostic "pyhcl2::evaluator::binary_expression::arithmetic_error")
      | .error _ => do
          -- `NotImplementedError` handler: the right operand is evaluated a
          -- second time to render the diagnostic.
          let _ ← evalNode r (f2 :: scope.tail)
          throw (.diagnostic "pyhcl2::evaluator::binary_expression::unsupported_operator")
  else do
    -- `getattr` raised `AttributeError`: the handler evaluates the right
    -- operand (for the first time) and raises `unsupported_operator`.
    let _ ← evalNode r (f1 :: scope.tail)
    throw (.diagnostic "pyhcl2::evaluator::binary_expression::unsupported_operator")
termination_by 2 * (sizeOf l + sizeOf r) + 1
decreasing_by
  all_goals simp_wf
  all_goals have hl := Node.sizeOf_pos l
  all_goals have hr := Node.sizeOf_pos r
  all_goals omega

/-- The loop of `_eval_array_expression`: evaluate the items in order,
threading the scope. -/
def evalNodeList (nodes : List Node) (scope : Scope) :
    Except EvalError (List Value × Frame) :=
  match nodes with
  | [] => pure ([], scope.headD [])
  | n :: rest => do
      let (v, f) ← evalNode n scope
      let (vs, f2) ← evalNodeList rest (f :: scope.tail)
      pure (v :: vs, f2)
termination_by 2 * sizeOf nodes

/-- The loop of `_eval_object_expression`, carrying the partial `result`
dict and the pending `unknown_keys` list.  Key dispatch per the source:
identifier keys and string-literal keys are used as-is; a parenthesised key
is evaluated — an `Unknown` key is appended to `unknown_keys` and the field
is skipped (`continue`), a `String` key is used, anything else raises
`object::unsupported_key`; any other key shape raises
`object::unsupported_key`.  An `Unknown` field value is replaced by
`value.indirect()` — since `Unknown.indirect` is a `@staticmethod`, that
call passes NO arguments (the instance is discarded), yielding
`Unknown(set(), set())`.  After the loop: if any key was `Unknown`, the
whole object collapses to `Unknown.indirect(*unknown_keys)`. -/
def evalObjectFields (fields : List (Node × Node)) (scope : Scope)
    (result : List (String × Value)) (unknownKeys : List Value) :
    Except EvalError (Value × Frame) :=
  match fields with
  | [] =>
      if unknownKeys.isEmpty then pure (.object result none, scope.headD [])
      else pure (Unknown.indirect unknownKeys, scope.headD [])
  | (keyExpr, valueExpr) :: rest =>
      match keyExpr with
      | .identifier n _ => evalObjectField n valueExpr rest scope result unknownKeys
      | .literal (.string s _) _ =>
          evalObjectField s valueExpr rest scope result unknownKeys
      | .parenthesis e _ => do
          let (k, f) ← evalNode e scope
          match k with
          | .unknown _ _ _ =>
              -- `continue`: the field's value expression is never evaluated.
              evalObjectFields rest (f :: scope.tail) result (unknownKeys ++ [k])
          | .string s _ =>
              evalObjectField s valueExpr rest (f :: scope.tail) result unknownKeys
          | _ => throw (.diagnostic "pyhcl2::evaluator::object::unsupported_key")
      | _ => throw (.diagnostic "pyhcl2::evaluator::object::unsupported_key")
termination_by 2 * sizeOf fields + 1

/-- Shared tail of the object-field loop once the key resolved to a string:
evaluate the value, apply the `Unknown`-value replacement, store, and
continue. -/
def evalObjectField (key : String) (valueExpr : Node) (rest : List (Node × Node))
    (scope : Scope) (result : List (String × Value)) (unknownKeys : List Value) :
    Except EvalError (Value × Frame) := do
  let (v, f) ← evalNode valueExpr scope
  let v := if v.isUnknown then Unknown.indirect [] else v
  evalObjectFields rest (f :: scope.tail) (dictSet result key v) unknownKeys
termination_by 2 * (sizeOf valueExpr + sizeOf rest)
decreasing_by
  all_goals simp_wf
  all_goals have hv := Node.sizeOf_pos valueExpr
  all_goals have hr : 0 < sizeOf rest := by cases rest <;> simp_arith
  all_goals omega

/-- The statement loop of `_eval_block`, carrying the partial result dict.
Each child statement is evaluated in a fresh child scope (`scope.child()`),
whose frame is discarded afterwards.  Attribute children must be unique
within the block (`block::duplicate_key`, checked after evaluation); block
children are woven in under their key path.  Statements matching neither
`Attribute()` nor `Block()` fall through the `match` silently. -/
def evalBlockBody (body : List Node) (scope : Scope)
    (result : List (String × Value)) :
    Except EvalError (List (String × Value)) :=
  match body with
  | [] => pure result
  | stmt :: rest =>
      match stmt with
      | .attribute key keySpan value sp => do
          let (v, _) ← evalNode (.attribute key keySpan value sp) ([] :: scope)
          if (dictGet result key).isSome then
            throw (.diagnostic "pyhcl2::evaluator::block::duplicate_key")
          else
            evalBlockBody rest scope (dictSet result key v)
      | .block type typeSpan labels bbody bsp => do
          let (v, _) ← evalNode (.block type typeSpan labels bbody bsp) ([] :: scope)
          match blockKeys type labels with
          | k :: ks => do
              let result2 ← weave k ks result v
              evalBlockBody rest scope result2
          | [] => evalBlockBody rest scope result  -- unreachable: keys start with the type name
      | _ => evalBlockBody rest scope result
termination_by 2 * sizeOf body

end

/-- Calling `Evaluator.eval` without a `scope` argument.  Python evaluates
the default argument `EvaluationScope()` once, when the `def eval(...)`
statement executes; every call that omits `scope` — on any `Evaluator`
instance — therefore shares that single scope object.  The shared scope has
no parent, and its mutable `variables` dict is the explicitly threaded
`sharedDefault` frame. -/
def evalWithDefaultScope (node : Node) (sharedDefault : Frame) :
    Except EvalError (Value × Frame) :=
  evalNode node [sharedDefault]

/-- Host-language (Python) objects passed to `Value.infer`.  Mapping keys
are modelled as strings (the `str(k)` coercion of non-string keys is outside
this fragment); `otherObject` stands for an object of any type `infer` does
not support. -/
inductive HostValue where
  | pyNone
  | boolean (b : Bool)
  | integer (i : Int)
  | float (q : Rat)
  | string (s : String)
  | sequence (items : List HostValue)
  | mapping (entries : List (String × HostValue))
  | value (v : Value)
  | pathLike (text : String)
  | otherObject (typeName : String)

mutual

/-- `Value.infer`.  The Python `match` tries, in source order: `None`,
`int()`, `float()`, `str()`, `bool()`, `Sequence()`, `Mapping()`,
`Value()`, `PathLike()`, else `NotImplementedError`.  Each constructor
below is routed to the FIRST Python case whose `isinstance` test it
passes.  In particular, because `bool` is a subclass of `int` in Python, a
boolean is captured by the earlier `case int()` arm: `infer(True)` builds
`Integer(True)` — the `Integer` whose payload equals `1` — and the later
`case bool()` arm is unreachable.  (A `str` is a `Sequence`, but the
`case str()` arm precedes `case Sequence()`.) -/
def Value.infer : HostValue → Except EvalError Value
  | .pyNone => .ok (.null none)
  | .integer i => .ok (.integer i none)
  | .boolean b => .ok (.integer (if b then 1 else 0) none)
  | .float q => .ok (.float q none)
  | .string s => .ok (.string s none)
  | .sequence items => do
      let vs ← inferList items
      .ok (.array vs none)
  | .mapping entries => do
      let es ← inferEntries entries
      .ok (.object es none)
  | .value v => .ok v
  | .pathLike text => .ok (.string text none)
  | .otherObject tn =>
      .error (.notImplemented ("Could not infer Value for object of type " ++ tn))

/-- The recursive item inference in `case Sequence()`. -/
def inferList : List HostValue → Except EvalError (List Value)
  | [] => .ok []
  | h :: rest => do
      let v ← Value.infer h
      let vs ← inferList rest
      .ok (v :: vs)

/-- The recursive member inference in `case Mapping()`. -/
def inferEntries : List (String × HostValue) → Except EvalError (List (String × Value))
  | [] => .ok []
  | (k, h) :: rest => do
      let v ← Value.infer h
      let es ← inferEntries rest
      .ok ((k, v) :: es)

end

/-- `tracker.VisitedVariablesTracker`: a tree of recorded accesses whose
`items()` view pretends to be the one-entry mapping `{self: self}`. -/
inductive VisitedVariablesTracker where
  | node (key : Option String) (children : List VisitedVariablesTracker)

/-- `VisitedVariablesTracker.items()` returns `{self: self}.items()`: a
single pair whose value is the tracker object itself. -/
def VisitedVariablesTracker.items (t : VisitedVariablesTracker) :
    List (VisitedVariablesTracker × VisitedVariablesTracker) := [(t, t)]

/-- The `variables` argument of `EvaluationScope(...)` as a Python object:
either an ordinary `dict[str, Value]`, or the duck-typed
`VisitedVariablesTracker` that `tracker.resolve_variable_references`
passes. -/
inductive ScopeVariablesArg where
  | dict (entries : List (String × Value))
  | tracker (t : VisitedVariablesTracker)

/-- `EvaluationScope.__post_init__`: iterate `variables.items()` and raise
`TypeError` for any value that is not a `Value` instance.  A `dict` of
`Value`s passes vacuously.  The tracker's `items()` view yields the tracker
object itself as its single value, which is not a `Value`, so construction
raises `TypeError` (the message interpolates the offending key's `repr`). -/
def evaluationScopePostInit : ScopeVariablesArg → Except EvalError Unit
  | .dict _ => .ok ()
  | .tracker _ =>
      .error (.typeError "Variable VisitedVariablesTracker(None) is not a Value")

/-- The fields of the `Evaluator` dataclass in `eval.py`:
`intrinsic_functions` only. -/
def evaluatorDataclassFields : List String := ["intrinsic_functions"]

/-- Constructing the `Evaluator` dataclass with keyword arguments: a
keyword that is not a dataclass field raises `TypeError` (the generated
`__init__` accepts only the declared fields). -/
def evaluatorInitCheck (kwargs : List String) : Except EvalError Unit :=
  if kwargs.all (fun k => evaluatorDataclassFields.contains k) then .ok ()
  else .error (.typeError "Evaluator.__init__ got an unexpected keyword argument")

/-- `tracker.resolve_variable_references(node)`.  The body executes, in
order: construct a fresh `VisitedVariablesTracker`; construct
`EvaluationScope(variables=visited_variables_tracker)` — whose
`__post_init__` raises `TypeError`, because the tracker's `items()` yields a
non-`Value` value; then (never reached) construct
`Evaluator(can_short_circuit=False, intrinsic_functions=...)` — which would
also raise `TypeError`, `can_short_circuit` not being a field of the
`Evaluator` dataclass; then (never reached) evaluate `node` and harvest
`get_visited_variables()`.  The trailing error stands for the unreachable
remainder of the body. -/
def resolveVariableReferences (node : Node) : Except EvalError (Finset (List String)) := do
  let t : VisitedVariablesTracker := .node none []
  let _ ← evaluationScopePostInit (.tracker t)
  let _ ← evaluatorInitCheck ["can_short_circuit", "intrinsic_functions"]
  let _ := node
  .error (.typeError "unreachable")

/-- `Module.get_blocks(block_type)`: the `Block` statements of the body,
filtered by type name when one is given. -/
def moduleGetBlocks (body : List Node) (blockType : Option String) : List Node :=
  body.filter fun stmt =>
    match stmt with
    | .block t _ _ _ _ =>
        match blockType with
        | none => true
        | some bt => t = bt
    | _ => false

/-- `Block.key()` (= `Block.key_path`) of a block node. -/
def blockNodeKey : Node → List String
  | .block t _ labels _ _ => blockKeys t labels
  | _ => []

/-- Insertion into the `{block.key(): block for block in blocks}` dict
comprehension: a later block with an equal key overwrites the earlier
entry in place. -/
def keyDictSet (d : List (List String × Node)) (k : List String) (b : Node) :
    List (List String × Node) :=
  match d with
  | [] => [(k, b)]
  | (k', b') :: rest =>
      if k' = k then (k', b) :: rest else (k', b') :: keyDictSet rest k b

/-- `blocks_by_key = {block.key(): block for block in blocks}`. -/
def blocksByKey (blocks : List Node) : List (List String × Node) :=
  blocks.foldl (fun d b => keyDictSet d (blockNodeKey b) b) []

/-- `generations._topological_generations(blocks)`.  With no blocks the
loop body never runs, the empty graph is a DAG, and
`nx.topological_generations` yields no generations.  Otherwise the first
loop iteration calls `resolve_variable_references(block)`, which always
raises `TypeError` (see above), so the graph construction, the DAG check
and the generation layering are never reached; the trailing error stands
for that unreachable remainder. -/
def topologicalGenerations (blocks : List Node) : Except EvalError (List (List Node)) :=
  match blocksByKey blocks with
  | [] => .ok []
  | (_, b) :: _ => do
      let _ ← resolveVariableReferences b
      .error (.typeError "unreachable")

/-- `generations.get_blocks_by_generation(module, block_type, reverse)`. -/
def getBlocksByGeneration (body : List Node) (blockType : String)
    (reverse : Bool) : Except EvalError (List (List Node)) := do
  let gens ← topologicalGenerations (moduleGetBlocks body (some blockType))
  pure (if reverse then gens.reverse else gens)

/-- The span-attachment step at the end of `Evaluator.eval` always yields a
value with a span. -/
theorem spanAttach_ne_none (v : Value) (sp : SourceSpan) :
    (if v.span = none then v.withSpan (some sp) else v).span ≠ none := by
  by_cases h : v.span = none
  · simp only [h, if_pos]
    cases v <;> simp [Value.withSpan, Value.span]
  · simp only [h, if_neg]
    exact h

/-- Every value returned by `Evaluator.eval` carries a span (the node's, if
the dispatch result had none). -/
theorem evalNode_ok_span_ne_none {n : Node} {s : Scope} {v : Value} {f : Frame}
    (h : evalNode n s = .ok (v, f)) : v.span ≠ none := by
  unfold evalNode at h
  cases hd : evalDispatch n s with
  | error e =>
      rw [hd] at h
      simp [exceptBindErr] at h
  | ok p =>
      rw [hd] at h
      obtain ⟨res, fr⟩ := p
      simp only [exceptBindOk, exceptPureDef, Except.ok.injEq, Prod.mk.injEq] at h
      obtain ⟨hv, _⟩ := h
      rw [← hv]
      exact spanAttach_ne_none res n.span

/-- C1 (counterexample): evaluating `1 + foo` in an empty scope — a binary
expression whose left operand is concrete and whose right operand evaluates
to an `Unknown` — returns the right operand's `Unknown` unchanged: its
direct reference set is `{("foo",)}` and its indirect set is empty,
contradicting the claim that every binary expression with an `Unknown`
operand yields an `Unknown` with an empty direct set and the operands'
references merged into the indirect set. -/
theorem c1_counterexample :
    evalNode (.binaryExpression .add ⟨2, 3⟩ (.literal (.integer 1 none) ⟨0, 1⟩)
        (.identifier "foo" ⟨4, 7⟩) ⟨0, 7⟩) [[]]
      = .ok (.unknown {⟨[some "foo"], ⟨4, 7⟩⟩} ∅ (some ⟨4, 7⟩), [])
    ∧ ({⟨[some "foo"], ⟨4, 7⟩⟩} : Finset VariableReference) ≠ ∅ := by
  constructor
  · simp [evalNode, evalDispatch, evalBinaryExpression, scopeLookup, dictGet,
      Unknown.ident, Value.isUnknown, Value.span, Value.withSpan, Node.span,
      Value.hasBinaryMethod, exceptBindOk, exceptBindErr, exceptThrowDef,
      exceptPureDef, exceptMapOk, exceptMapErr]
  · decide

/-- C1 (amended): in a binary expression, when the LEFT operand evaluates to
an `Unknown`, the evaluator also evaluates the right operand and returns an
`Unknown` whose direct set is empty and whose indirect set is the union of
the references of both operands (the left `Unknown`'s references together
with the references of the resolved right value); but when the left operand
is concrete and supports the operator and only the RIGHT operand evaluates
to an `Unknown`, the evaluator returns the right operand's `Unknown`
unchanged, direct references included. -/
theorem c1_binary_unknown_propagation :
    (∀ (op : BinOp) (opSp : SourceSpan) (l r : Node) (sp : SourceSpan)
        (scope : Scope) (d i : Finset VariableReference) (usp : Option SourceSpan)
        (f1 : Frame) (rv : Value) (f2 : Frame),
      evalNode l scope = .ok (.unknown d i usp, f1) →
      evalNode r (f1 :: scope.tail) = .ok (rv, f2) →
      evalNode (.binaryExpression op opSp l r sp) scope =
        .ok (.unknown ∅ ((d ∪ i) ∪ (Value.resolve rv).references) (some sp), f2))
    ∧
    (∀ (op : BinOp) (opSp : SourceSpan) (l r : Node) (sp : SourceSpan)
        (scope : Scope) (lv : Value) (f1 : Frame) (rv : Value) (f2 : Frame),
      evalNode l scope = .ok (lv, f1) →
      lv.isUnknown = false →
      lv.hasBinaryMethod op = true →
      evalNode r (f1 :: scope.tail) = .ok (rv, f2) →
      rv.isUnknown = true →
      evalNode (.binaryExpression op opSp l r sp) scope = .ok (rv, f2)) := by
  constructor
  · intro op opSp l r sp scope d i usp f1 rv f2 h1 h2
    rw [evalNode.eq_def]
    simp only [evalDispatch]
    rw [evalBinaryExpression.eq_def]
    rw [h1]
    simp only [exceptBindOk, Value.isUnknown, if_true]
    rw [h2]
    simp only [exceptBindOk, exceptPureDef, Unknown.indirect, List.map,
      unionReferences, Value.resolve, Value.references, Finset.union_empty,
      Value.span, Value.withSpan, Node.span, if_true]
  · intro op opSp l r sp scope lv f1 rv f2 h1 hlv hm h2 hrv
    have hspan := evalNode_ok_span_ne_none h2
    rw [evalNode.eq_def]
    simp only [evalDispatch]
    rw [evalBinaryExpression.eq_def]
    rw [h1]
    simp only [exceptBindOk, hlv, hm, Bool.false_eq_true, if_false, if_true]
    rw [h2]
    simp only [exceptBindOk, hrv, if_true, exceptPureDef]
    simp [hspan]

/-- C1 (witness): the amended theorem applied to `foo + 1` (left operand
`Unknown`) and to `1 + foo` (right operand `Unknown`) in an empty scope. -/
theorem c1_binary_unknown_propagation_witness :
    evalNode (.binaryExpression .add ⟨4, 5⟩ (.identifier "foo" ⟨0, 3⟩)
        (.literal (.integer 1 none) ⟨6, 7⟩) ⟨0, 7⟩) [[]]
      = .ok (.unknown ∅
          ((({⟨[some "foo"], ⟨0, 3⟩⟩} : Finset VariableReference) ∪ ∅)
            ∪ (Value.resolve (.integer 1 (some ⟨6, 7⟩))).references)
          (some ⟨0, 7⟩), [])
    ∧ evalNode (.binaryExpression .add ⟨2, 3⟩ (.literal (.integer 1 none) ⟨0, 1⟩)
        (.identifier "foo" ⟨4, 7⟩) ⟨0, 7⟩) [[]]
      = .ok (.unknown {⟨[some "foo"], ⟨4, 7⟩⟩} ∅ (some ⟨4, 7⟩), []) :=
  ⟨c1_binary_unknown_propagation.1 .add ⟨4, 5⟩ (.identifier "foo" ⟨0, 3⟩)
      (.literal (.integer 1 none) ⟨6, 7⟩) ⟨0, 7⟩ [[]]
      {⟨[some "foo"], ⟨0, 3⟩⟩} ∅ (some ⟨0, 3⟩) [] (.integer 1 (some ⟨6, 7⟩)) []
      (by simp [evalNode, evalDispatch, scopeLookup, dictGet, Unknown.ident,
        Value.span, Value.withSpan, Node.span, exceptBindOk, exceptPureDef])
      (by simp [evalNode, evalDispatch, Value.span, Value.withSpan, Node.span,
        exceptBindOk, exceptPureDef]),
   c1_binary_unknown_propagation.2 .add ⟨2, 3⟩ (.literal (.integer 1 none) ⟨0, 1⟩)
      (.identifier "foo" ⟨4, 7⟩) ⟨0, 7⟩ [[]] (.integer 1 (some ⟨0, 1⟩)) []
      (.unknown {⟨[some "foo"], ⟨4, 7⟩⟩} ∅ (some ⟨4, 7⟩)) []
      (by simp [evalNode, evalDispatch, Value.span, Value.withSpan, Node.span,
        exceptBindOk, exceptPureDef])
      (by simp [Value.isUnknown])
      (by simp [Value.hasBinaryMethod])
      (by simp [evalNode, evalDispatch, scopeLookup, dictGet, Unknown.ident,
        Value.span, Value.withSpan, Node.span, exceptBindOk, exceptPureDef])
      (by simp [Value.isUnknown])⟩

/-- C4 (failing input): evaluating the object literal `{ a = foo }` in an
empty scope stores, under key `"a"`, the value `value.indirect()` — which,
`Unknown.indirect` being a `@staticmethod` invoked through the instance,
receives no arguments and is `Unknown(set(), set())`: an `Unknown` whose
direct ∪ indirect reference set is empty, contradicting the claimed
invariant.  Consequently the object's `resolve()` also carries no
references. -/
theorem c4_unknown_without_references :
    evalNode (.objectExpression [(.identifier "a" ⟨2, 3⟩, .identifier "foo" ⟨6, 9⟩)]
        ⟨0, 11⟩) [[]]
      = .ok (.object [("a", .unknown ∅ ∅ none)] (some ⟨0, 11⟩), [])
    ∧ (Value.unknown ∅ ∅ none).references = ∅
    ∧ (Value.resolve (.object [("a", .unknown ∅ ∅ none)] (some ⟨0, 11⟩))).references
        = ∅ := by
  refine ⟨?_, rfl, ?_⟩
  · simp [evalNode, evalDispatch, evalObjectFields, evalObjectField, scopeLookup,
      dictGet, dictSet, Unknown.ident, Unknown.indirect, Value.isUnknown,
      Value.span, Value.withSpan, unionReferences, Value.references,
      Value.resolve, Node.span, exceptBindOk, exceptBindErr, exceptThrowDef,
      exceptPureDef, exceptMapOk, exceptMapErr]
  · simp [Value.resolve, resolveEntriesUnknowns, resolveListUnknowns,
      Value.isUnknown, unionReferences, Value.references]

/-- C8 (counterexample): passing a `Module` node to `Evaluator.eval` — here
the module containing the single attribute `a = 1` — does not evaluate it as
an implicit outer block; `Module` matches no dispatch arm and falls into the
default arm, raising `pyhcl2::evaluator::unsupported_node`. -/
theorem c8_module_counterexample :
    evalNode (.module [.attribute "a" ⟨0, 1⟩ (.literal (.integer 1 none) ⟨4, 5⟩)
        ⟨0, 5⟩] ⟨0, 5⟩) [[]]
      = .error (.diagnostic "pyhcl2::evaluator::unsupported_node") := by
  simp [evalNode, evalDispatch, exceptThrowDef, exceptBindErr]

/-- C8 (amended): `Evaluator.eval` on ANY `Module` node, in any scope,
raises `pyhcl2::evaluator::unsupported_node`: `Module` is not among the
handled node variants, so it falls into the default dispatch arm. -/
theorem c8_module_unsupported_node (body : List Node) (sp : SourceSpan)
    (scope : Scope) :
    evalNode (.module body sp) scope
      = .error (.diagnostic "pyhcl2::evaluator::unsupported_node") := by
  simp [evalNode, evalDispatch, exceptThrowDef, exceptBindErr]

/-- C9 (failing input / divergence): `Value.infer` maps the host boolean
`True` to `Integer(True)` — the `Integer` equal to `Integer(1)` — and
`False` to `Integer(0)`, NOT to `Boolean` values, because Python's `bool` is
a subclass of `int` and the `case int()` arm precedes `case bool()`.  Using
such an inferred value as a conditional test therefore raises
`conditional::unsupported_condition` instead of selecting a branch.  (The
repository's own test `test_value_infer_bool` expects `Boolean(True)`.) -/
theorem c9_infer_bool_is_integer :
    Value.infer (.boolean true) = .ok (.integer 1 none)
    ∧ Value.infer (.boolean false) = .ok (.integer 0 none)
    ∧ evalNode (.conditional (.literal (.integer 1 none) ⟨0, 4⟩)
        (.literal (.integer 2 none) ⟨7, 8⟩) (.literal (.integer 3 none) ⟨11, 12⟩)
        ⟨0, 12⟩) [[]]
      = .error (.diagnostic "pyhcl2::evaluator::conditional::unsupported_condition") := by
  refine ⟨by simp [Value.infer], by simp [Value.infer], ?_⟩
  simp [evalNode, evalDispatch, Value.span, Value.withSpan, Node.span,
    exceptBindOk, exceptBindErr, exceptThrowDef, exceptPureDef, exceptMapOk,
    exceptMapErr]

/-- C2: `resolve_variable_references` never succeeds on ANY node: the
`EvaluationScope(variables=visited_variables_tracker)` construction in its
body raises `TypeError` from `__post_init__` (the tracker's `items()` yields
the tracker object itself, which is not a `Value`) — before the evaluation
that the claim describes could even start.  (The `Evaluator(
can_short_circuit=False, ...)` call on the next line would also raise
`TypeError`: `can_short_circuit` is not a field of the `Evaluator`
dataclass.)  In particular it does not return
`{("foo",), ("foo","bar"), ("baz",)}` on `foo.bar + baz`. -/
theorem c2_tracker_always_raises (node : Node) :
    resolveVariableReferences node
      = .error (.typeError "Variable VisitedVariablesTracker(None) is not a Value") := by
  simp [resolveVariableReferences, evaluationScopePostInit, exceptThrowDef,
    exceptBindErr]

/-- Inserting into the block-key dict never produces an empty dict. -/
theorem keyDictSet_ne_nil (d : List (List String × Node)) (k : List String)
    (b : Node) : keyDictSet d k b ≠ [] := by
  cases d with
  | nil => simp [keyDictSet]
  | cons e rest =>
      obtain ⟨k', b'⟩ := e
      simp only [keyDictSet]
      split <;> simp

/-- The block-key dict fold preserves non-emptiness of its accumulator. -/
theorem blocksByKey_foldl_ne_nil (blocks : List Node)
    (d : List (List String × Node)) (hd : d ≠ []) :
    blocks.foldl (fun d b => keyDictSet d (blockNodeKey b) b) d ≠ [] := by
  induction blocks generalizing d with
  | nil => simpa [List.foldl]
  | cons b rest ih =>
      simp only [List.foldl]
      exact ih _ (keyDictSet_ne_nil d (blockNodeKey b) b)

/-- `blocks_by_key` is non-empty whenever the block list is. -/
theorem blocksByKey_ne_nil (blocks : List Node) (h : blocks ≠ []) :
    blocksByKey blocks ≠ [] := by
  cases blocks with
  | nil => exact absurd rfl h
  | cons b rest =>
      simp only [blocksByKey, List.foldl]
      exact blocksByKey_foldl_ne_nil rest _ (keyDictSet_ne_nil [] _ b)

/-- C3: for every module with at least one block of the requested type —
whatever its dependency structure, in particular when the dependency graph
is trivially acyclic — the generation planner raises `TypeError` instead of
returning layers, because its first call to `resolve_variable_references`
fails during scope construction (see C2). -/
theorem c3_planner_raises_on_any_block (body : List Node) (blockType : String)
    (reverse : Bool) (h : moduleGetBlocks body (some blockType) ≠ []) :
    getBlocksByGeneration body blockType reverse
      = .error (.typeError "Variable VisitedVariablesTracker(None) is not a Value") := by
  have hk := blocksByKey_ne_nil _ h
  unfold getBlocksByGeneration topologicalGenerations
  cases hbk : blocksByKey (moduleGetBlocks body (some blockType)) with
  | nil => exact absurd hbk hk
  | cons e rest =>
      obtain ⟨k, b⟩ := e
      simp [c2_tracker_always_raises b, exceptBindErr, exceptThrowDef]

/-- C3 (witness): the planner applied to the module
`a "x" { v = 1 }  a "y" { w = 2 }` (two blocks of type `a`, trivially
acyclic) raises the scope-construction `TypeError`. -/
theorem c3_planner_raises_witness :
    getBlocksByGeneration
      [ .block "a" ⟨0, 1⟩ [.literal (.string "x" none) ⟨2, 5⟩]
          [.attribute "v" ⟨8, 9⟩ (.literal (.integer 1 none) ⟨12, 13⟩) ⟨8, 13⟩] ⟨0, 15⟩,
        .block "a" ⟨16, 17⟩ [.literal (.string "y" none) ⟨18, 21⟩]
          [.attribute "w" ⟨24, 25⟩ (.literal (.integer 2 none) ⟨28, 29⟩) ⟨24, 29⟩] ⟨16, 31⟩ ]
      "a" false
      = .error (.typeError "Variable VisitedVariablesTracker(None) is not a Value") :=
  c3_planner_raises_on_any_block _ "a" false (by simp [moduleGetBlocks])

/-- The span-attachment step is the identity on values that already carry a
span. -/
theorem spanAttach_of_ne_none (v : Value) (sp : SourceSpan) (h : v.span ≠ none) :
    (if v.span = none then v.withSpan (some sp) else v) = v := by
  simp [h]

/-- Evaluating a `Literal` node returns the wrapped value, with the node's
span attached if the value has none, and leaves the innermost frame
untouched. -/
theorem evalNode_literal (v : Value) (sp : SourceSpan) (scope : Scope) :
    evalNode (.literal v sp) scope
      = .ok (if v.span = none then v.withSpan (some sp) else v, scope.headD []) := by
  rw [evalNode.eq_def]
  simp [evalDispatch, exceptBindOk, exceptPureDef, Node.span]

/-- C6: attribute access on a concrete `Object` that lacks the key returns
an `Unknown` whose single direct reference is `(None, key)` (at the key
identifier's span) with an empty indirect set; attribute access on an
`Unknown` returns an `Unknown` whose direct references are each existing
direct reference extended by the key — or the fresh `(None, key)` reference
when there were none — and whose indirect set carries forward all the prior
references (`direct ∪ indirect`). -/
theorem c6_get_attr_references :
    (∀ (entries : List (String × Value)) (osp : Option SourceSpan) (k : String)
        (ksp : SourceSpan),
      dictGet entries k = none →
      evaluateGetAttr (.object entries osp) ⟨k, ksp⟩
        = .ok (.unknown {⟨[none, some k], ksp⟩} ∅ none))
    ∧
    (∀ (d i : Finset VariableReference) (usp : Option SourceSpan) (k : String)
        (ksp : SourceSpan),
      (d = ∅ →
        evaluateGetAttr (.unknown d i usp) ⟨k, ksp⟩
          = .ok (.unknown {⟨[none, some k], ksp⟩} (d ∪ i) none))
      ∧
      (d ≠ ∅ →
        evaluateGetAttr (.unknown d i usp) ⟨k, ksp⟩
          = .ok (.unknown
              (d.image (fun r => ⟨r.key ++ [some k], ksp⟩)) (d ∪ i) none))) := by
  constructor
  · intro entries osp k ksp h
    simp [evaluateGetAttr, h, Unknown.direct]
  · intro d i usp k ksp
    constructor
    · intro h
      simp [evaluateGetAttr, Unknown.direct, h]
    · intro h
      simp [evaluateGetAttr, Unknown.direct, h]

/-- C6 (witness): the theorem applied to the object `{"other": 1}` with
missing key `"bar"`, and to the `Unknown` with direct `{("foo",)}` and
empty indirect set (both the empty-direct and the non-empty-direct arm). -/
theorem c6_get_attr_references_witness :
    evaluateGetAttr (.object [("other", .integer 1 none)] none) ⟨"bar", ⟨4, 7⟩⟩
      = .ok (.unknown {⟨[none, some "bar"], ⟨4, 7⟩⟩} ∅ none)
    ∧ evaluateGetAttr (.unknown ∅ {⟨[some "foo"], ⟨0, 3⟩⟩} none) ⟨"bar", ⟨4, 7⟩⟩
      = .ok (.unknown {⟨[none, some "bar"], ⟨4, 7⟩⟩}
          ((∅ : Finset VariableReference) ∪ {⟨[some "foo"], ⟨0, 3⟩⟩}) none)
    ∧ evaluateGetAttr (.unknown {⟨[some "foo"], ⟨0, 3⟩⟩} ∅ none) ⟨"bar", ⟨4, 7⟩⟩
      = .ok (.unknown
          (({⟨[some "foo"], ⟨0, 3⟩⟩} : Finset VariableReference).image
            (fun r => ⟨r.key ++ [some "bar"], ⟨4, 7⟩⟩))
          (({⟨[some "foo"], ⟨0, 3⟩⟩} : Finset VariableReference) ∪ ∅) none) :=
  ⟨c6_get_attr_references.1 [("other", .integer 1 none)] none "bar" ⟨4, 7⟩
      (by simp [dictGet]),
   (c6_get_attr_references.2 ∅ {⟨[some "foo"], ⟨0, 3⟩⟩} none "bar" ⟨4, 7⟩).1 rfl,
   (c6_get_attr_references.2 {⟨[some "foo"], ⟨0, 3⟩⟩} ∅ none "bar" ⟨4, 7⟩).2
      (by decide)⟩

/-- C10: `Evaluator.eval` called without an explicit scope uses the single
shared default `EvaluationScope` (Python evaluates the default argument once
at function definition time, so every omitted-scope call on every
`Evaluator` instance shares it; the model threads that shared scope's
`variables` frame explicitly).  (a) Evaluating a top-level `Attribute`
without a scope binds the attribute into the shared frame; (b) any later
omitted-scope evaluation of an `Identifier` bound in the shared frame sees
the binding; (c) a caller who passes a fresh empty scope instead is
unaffected: an `Identifier` there evaluates to the free `Unknown`,
independently of the shared frame's contents. -/
theorem c10_shared_default_scope :
    (∀ (name : String) (ksp : SourceSpan) (v : Value) (vsp asp : SourceSpan)
        (shared : Frame),
      evalWithDefaultScope (.attribute name ksp (.literal v vsp) asp) shared
        = .ok (if v.span = none then v.withSpan (some vsp) else v,
            dictSet shared name (if v.span = none then v.withSpan (some vsp) else v)))
    ∧
    (∀ (name : String) (isp : SourceSpan) (v : Value) (shared : Frame),
      dictGet shared name = some v →
      evalWithDefaultScope (.identifier name isp) shared
        = .ok (if v.span = none then v.withSpan (some isp) else v, shared))
    ∧
    (∀ (name : String) (isp : SourceSpan),
      evalNode (.identifier name isp) [[]]
        = .ok (Unknown.ident name isp, [])) := by
  refine ⟨?_, ?_, ?_⟩
  · intro name ksp v vsp asp shared
    rw [evalWithDefaultScope, evalNode.eq_def]
    simp only [evalDispatch]
    rw [evalNode_literal]
    simp only [List.headD, exceptBindOk, exceptPureDef, Node.span]
    rw [spanAttach_of_ne_none _ _ (spanAttach_ne_none v vsp)]
  · intro name isp v shared h
    rw [evalWithDefaultScope, evalNode.eq_def]
    simp [evalDispatch, scopeLookup, h, exceptBindOk, exceptPureDef, Node.span]
  · intro name isp
    rw [evalNode.eq_def]
    simp [evalDispatch, scopeLookup, dictGet, Unknown.ident, Value.span,
      Value.withSpan, Node.span, exceptBindOk, exceptPureDef]

/-- C10 (witness): with empty shared state, evaluating `a = 1` without a
scope stores the binding in the shared default scope; re-evaluating the
identifier `a` without a scope (on any evaluator) then yields `Integer(1)`
rather than an unknown-variable failure, while a fresh explicit scope still
sees `a` as free. -/
theorem c10_shared_default_scope_witness :
    evalWithDefaultScope (.attribute "a" ⟨0, 1⟩ (.literal (.integer 1 none) ⟨4, 5⟩)
        ⟨0, 5⟩) []
      = .ok (.integer 1 (some ⟨4, 5⟩), [("a", .integer 1 (some ⟨4, 5⟩))])
    ∧ evalWithDefaultScope (.identifier "a" ⟨0, 1⟩) [("a", .integer 1 (some ⟨4, 5⟩))]
      = .ok (.integer 1 (some ⟨4, 5⟩), [("a", .integer 1 (some ⟨4, 5⟩))])
    ∧ evalNode (.identifier "a" ⟨0, 1⟩) [[]]
      = .ok (Unknown.ident "a" ⟨0, 1⟩, []) :=
  ⟨by
    have h := c10_shared_default_scope.1 "a" ⟨0, 1⟩ (.integer 1 none) ⟨4, 5⟩ ⟨0, 5⟩ []
    simpa [Value.span, Value.withSpan, dictSet] using h,
   by
    have h := c10_shared_default_scope.2.1 "a" ⟨0, 1⟩ (.integer 1 (some ⟨4, 5⟩))
      [("a", .integer 1 (some ⟨4, 5⟩))] (by simp [dictGet])
    simpa [Value.span] using h,
   c10_shared_default_scope.2.2 "a" ⟨0, 1⟩⟩

/-- Weaving under a single-component key path into an empty mapping
creates a fresh one-element array. -/
theorem weave_single_empty (k : String) (v : Value) :
    weave k [] [] v = .ok [(k, .array [v] none)] := by
  simp [weave, dictGet, dictSet]

/-- Weaving a second value under the same single-component key path appends
it to the existing array. -/
theorem weave_single_append (k : String) (items : List Value)
    (sp : Option SourceSpan) (v : Value) :
    weave k [] [(k, .array items sp)] v
      = .ok [(k, .array (items ++ [v]) sp)] := by
  simp [weave, dictGet, dictSet]

/-- Weaving under a key path with a MISSING intermediate component leaves
the mapping unchanged whenever the orphaned descent raises no conflict: the
woven value is silently dropped. -/
theorem weave_orphan_drop (key k2 : String) (ks : List String)
    (mapping : List (String × Value)) (v : Value)
    (hmiss : dictGet mapping key = none)
    (ho : weaveOrphan key (dropLastOf k2 ks) (lastOf k2 ks) = .ok ()) :
    weave key (k2 :: ks) mapping v = .ok mapping := by
  rw [weave.eq_def]
  simp [hmiss, ho, exceptBindOk]

/-- C5: (1) a block whose body is two nested sibling blocks with the same
SINGLE-component key path (the block's type, with no label contributing a
component) evaluates to an object mapping that key to the array holding
both nested block results in order; (2) when the shared key path has two or
more components and its first component is absent from the outer result,
the chained assignment `mapping = mapping[key] = Object({})` orphans the
new intermediate, so both nested blocks are silently dropped and the outer
object is empty (provided the orphaned descent raises no conflict, i.e. the
final component differs from the last intermediate's key); (3) a second
`Attribute` child reusing an already-used key raises
`block::duplicate_key`; (4) a nested block landing on a final key component
whose occupant is neither absent nor an array raises
`block::key_conflict`. -/
theorem c5_block_merging :
    (∀ (ot : String) (otsp : SourceSpan) (olabels : List Label) (osp : SourceSpan)
        (t1 t2 : String) (t1sp t2sp : SourceSpan) (labels1 labels2 : List Label)
        (body1 body2 : List Node) (sp1 sp2 : SourceSpan) (scope : Scope)
        (v1 v2 : Value) (f1 f2 : Frame) (k : String),
      blockKeys t1 labels1 = [k] →
      blockKeys t2 labels2 = [k] →
      evalNode (.block t1 t1sp labels1 body1 sp1) ([] :: scope) = .ok (v1, f1) →
      evalNode (.block t2 t2sp labels2 body2 sp2) ([] :: scope) = .ok (v2, f2) →
      evalNode (.block ot otsp olabels
          [.block t1 t1sp labels1 body1 sp1, .block t2 t2sp labels2 body2 sp2]
          osp) scope
        = .ok (.object [(k, .array [v1, v2] none)] (some osp), scope.headD []))
    ∧
    (∀ (ot : String) (otsp : SourceSpan) (olabels : List Label) (osp : SourceSpan)
        (t1 t2 : String) (t1sp t2sp : SourceSpan) (labels1 labels2 : List Label)
        (body1 body2 : List Node) (sp1 sp2 : SourceSpan) (scope : Scope)
        (v1 v2 : Value) (f1 f2 : Frame) (k k2 : String) (ks : List String),
      blockKeys t1 labels1 = k :: k2 :: ks →
      blockKeys t2 labels2 = k :: k2 :: ks →
      weaveOrphan k (dropLastOf k2 ks) (lastOf k2 ks) = .ok () →
      evalNode (.block t1 t1sp labels1 body1 sp1) ([] :: scope) = .ok (v1, f1) →
      evalNode (.block t2 t2sp labels2 body2 sp2) ([] :: scope) = .ok (v2, f2) →
      evalNode (.block ot otsp olabels
          [.block t1 t1sp labels1 body1 sp1, .block t2 t2sp labels2 body2 sp2]
          osp) scope
        = .ok (.object [] (some osp), scope.headD []))
    ∧
    (∀ (ot : String) (otsp : SourceSpan) (olabels : List Label) (osp : SourceSpan)
        (k : String) (ksp1 ksp2 : SourceSpan) (e1 e2 : Node) (asp1 asp2 : SourceSpan)
        (scope : Scope) (v1 v2 : Value) (f1 f2 : Frame),
      evalNode (.attribute k ksp1 e1 asp1) ([] :: scope) = .ok (v1, f1) →
      evalNode (.attribute k ksp2 e2 asp2) ([] :: scope) = .ok (v2, f2) →
      evalNode (.block ot otsp olabels
          [.attribute k ksp1 e1 asp1, .attribute k ksp2 e2 asp2] osp) scope
        = .error (.diagnostic "pyhcl2::evaluator::block::duplicate_key"))
    ∧
    (∀ (ot : String) (otsp : SourceSpan) (olabels : List Label) (osp : SourceSpan)
        (k : String) (ksp : SourceSpan) (e : Node) (asp : SourceSpan)
        (btsp : SourceSpan) (bbody : List Node) (bsp : SourceSpan)
        (scope : Scope) (v1 v2 : Value) (f1 f2 : Frame),
      evalNode (.attribute k ksp e asp) ([] :: scope) = .ok (v1, f1) →
      v1.isArray = false →
      evalNode (.block k btsp [] bbody bsp) ([] :: scope) = .ok (v2, f2) →
      evalNode (.block ot otsp olabels
          [.attribute k ksp e asp, .block k btsp [] bbody bsp] osp) scope
        = .error (.diagnostic "pyhcl2::evaluator::block::key_conflict")) := by
  refine ⟨?_, ?_, ?_, ?_⟩
  · intro ot otsp olabels osp t1 t2 t1sp t2sp labels1 labels2 body1 body2 sp1 sp2
      scope v1 v2 f1 f2 k hk1 hk2 h1 h2
    rw [evalNode.eq_def]
    simp only [evalDispatch]
    rw [evalBlockBody.eq_def]
    simp only []
    rw [h1]
    simp only [exceptBindOk]
    rw [hk1]
    simp only []
    rw [weave_single_empty]
    simp only [exceptBindOk]
    rw [evalBlockBody.eq_def]
    simp only []
    rw [h2]
    simp only [exceptBindOk]
    rw [hk2]
    simp only []
    rw [weave_single_append]
    simp only [exceptBindOk]
    rw [evalBlockBody.eq_def]
    simp only [exceptPureDef, exceptBindOk, List.singleton_append]
    simp [Value.span, Value.withSpan, Node.span]
  · intro ot otsp olabels osp t1 t2 t1sp t2sp labels1 labels2 body1 body2 sp1 sp2
      scope v1 v2 f1 f2 k k2 ks hk1 hk2 ho h1 h2
    rw [evalNode.eq_def]
    simp only [evalDispatch]
    rw [evalBlockBody.eq_def]
    simp only []
    rw [h1]
    simp only [exceptBindOk]
    rw [hk1]
    simp only []
    rw [weave_orphan_drop k k2 ks [] v1 rfl ho]
    simp only [exceptBindOk]
    rw [evalBlockBody.eq_def]
    simp only []
    rw [h2]
    simp only [exceptBindOk]
    rw [hk2]
    simp only []
    rw [weave_orphan_drop k k2 ks [] v2 rfl ho]
    simp only [exceptBindOk]
    rw [evalBlockBody.eq_def]
    simp only [exceptPureDef, exceptBindOk]
    simp [Value.span, Value.withSpan, Node.span]
  · intro ot otsp olabels osp k ksp1 ksp2 e1 e2 asp1 asp2 scope v1 v2 f1 f2 h1 h2
    rw [evalNode.eq_def]
    simp only [evalDispatch]
    rw [evalBlockBody.eq_def]
    simp only []
    rw [h1]
    simp only [exceptBindOk, dictGet, dictSet, Option.isSome]
    rw [evalBlockBody.eq_def]
    simp only []
    rw [h2]
    simp [exceptBindOk, exceptBindErr, exceptThrowDef, dictGet, dictSet]
  · intro ot otsp olabels osp k ksp e asp btsp bbody bsp scope v1 v2 f1 f2 h1 hv1 h2
    rw [evalNode.eq_def]
    simp only [evalDispatch]
    rw [evalBlockBody.eq_def]
    simp only []
    rw [h1]
    simp only [exceptBindOk, dictGet, dictSet, Option.isSome]
    rw [evalBlockBody.eq_def]
    simp only []
    rw [h2]
    simp only [exceptBindOk, blockKeys, List.filterMap]
    rw [weave.eq_def]
    simp only [dictGet, if_pos rfl]
    cases v1 <;> simp_all [Value.isArray, exceptBindErr, exceptThrowDef]

/-- C5 (counterexample): two nested sibling blocks with the same type AND a
label — `nested "x" { a = 1 }` and `nested "x" { a = 2 }`, key path
`("nested", "x")` — do NOT merge into an array at that key path: the
chained assignment `mapping = mapping[key] = Object({})` (eval.py line 156)
rebinds `mapping` before the subscript store, orphaning the new
intermediate, so both blocks are silently dropped and the outer object is
empty — it has no entry at the key path's first component at all. -/
theorem c5_counterexample :
    evalNode (.block "test" ⟨0, 4⟩ []
        [ .block "nested" ⟨10, 16⟩ [.literal (.string "x" none) ⟨17, 20⟩]
            [.attribute "a" ⟨23, 24⟩ (.literal (.integer 1 none) ⟨27, 28⟩) ⟨23, 28⟩]
            ⟨10, 30⟩,
          .block "nested" ⟨40, 46⟩ [.literal (.string "x" none) ⟨47, 50⟩]
            [.attribute "a" ⟨53, 54⟩ (.literal (.integer 2 none) ⟨57, 58⟩) ⟨53, 58⟩]
            ⟨40, 60⟩ ] ⟨0, 70⟩) [[]]
      = .ok (.object [] (some ⟨0, 70⟩), [])
    ∧ dictGet [] "nested" = none := by
  constructor
  · simp [evalNode, evalDispatch, evalBlockBody, blockKeys, weave, weaveOrphan,
      lastOf, dropLastOf, dictGet, dictSet, Value.span, Value.withSpan,
      Node.span, exceptBindOk, exceptBindErr, exceptThrowDef, exceptPureDef,
      exceptMapOk, exceptMapErr]
  · simp [dictGet]

/-- C5 (witness): the four parts applied to concrete blocks: the unlabeled
`test { nested { a = 1 } nested { a = 2 } }` sibling merge, the labeled
`test { nested "x" { a = 1 } nested "x" { a = 2 } }` silent drop, the
duplicate `t { a = 1  a = 2 }`, and the conflict `t { a = 1  a { } }`. -/
theorem c5_block_merging_witness :
    evalNode (.block "test" ⟨0, 4⟩ []
        [ .block "nested" ⟨10, 16⟩ []
            [.attribute "a" ⟨20, 21⟩ (.literal (.integer 1 none) ⟨24, 25⟩) ⟨20, 25⟩]
            ⟨10, 30⟩,
          .block "nested" ⟨40, 46⟩ []
            [.attribute "a" ⟨50, 51⟩ (.literal (.integer 2 none) ⟨54, 55⟩) ⟨50, 55⟩]
            ⟨40, 60⟩ ] ⟨0, 70⟩) [[]]
      = .ok (.object [("nested",
          .array [ .object [("a", .integer 1 (some ⟨24, 25⟩))] (some ⟨10, 30⟩),
                   .object [("a", .integer 2 (some ⟨54, 55⟩))] (some ⟨40, 60⟩) ]
            none)] (some ⟨0, 70⟩), ([[]] : Scope).headD [])
    ∧ evalNode (.block "outer" ⟨0, 5⟩ []
        [ .block "nested" ⟨10, 16⟩ [.identifier "y" ⟨17, 18⟩]
            [.attribute "a" ⟨21, 22⟩ (.literal (.integer 1 none) ⟨25, 26⟩) ⟨21, 26⟩]
            ⟨10, 30⟩,
          .block "nested" ⟨40, 46⟩ [.identifier "y" ⟨47, 48⟩]
            [.attribute "a" ⟨51, 52⟩ (.literal (.integer 2 none) ⟨55, 56⟩) ⟨51, 56⟩]
            ⟨40, 60⟩ ] ⟨0, 70⟩) [[]]
      = .ok (.object [] (some ⟨0, 70⟩), ([[]] : Scope).headD [])
    ∧ evalNode (.block "t" ⟨0, 1⟩ []
        [ .attribute "a" ⟨2, 3⟩ (.literal (.integer 1 none) ⟨4, 5⟩) ⟨2, 5⟩,
          .attribute "a" ⟨6, 7⟩ (.literal (.integer 2 none) ⟨8, 9⟩) ⟨6, 9⟩ ]
        ⟨0, 9⟩) [[]]
      = .error (.diagnostic "pyhcl2::evaluator::block::duplicate_key")
    ∧ evalNode (.block "t" ⟨0, 1⟩ []
        [ .attribute "a" ⟨2, 3⟩ (.literal (.integer 1 none) ⟨4, 5⟩) ⟨2, 5⟩,
          .block "a" ⟨6, 7⟩ [] [] ⟨6, 9⟩ ] ⟨0, 9⟩) [[]]
      = .error (.diagnostic "pyhcl2::evaluator::block::key_conflict") :=
  ⟨c5_block_merging.1 "test" ⟨0, 4⟩ [] ⟨0, 70⟩ "nested" "nested" ⟨10, 16⟩ ⟨40, 46⟩
      [] []
      [.attribute "a" ⟨20, 21⟩ (.literal (.integer 1 none) ⟨24, 25⟩) ⟨20, 25⟩]
      [.attribute "a" ⟨50, 51⟩ (.literal (.integer 2 none) ⟨54, 55⟩) ⟨50, 55⟩]
      ⟨10, 30⟩ ⟨40, 60⟩ [[]]
      (.object [("a", .integer 1 (some ⟨24, 25⟩))] (some ⟨10, 30⟩))
      (.object [("a", .integer 2 (some ⟨54, 55⟩))] (some ⟨40, 60⟩)) [] []
      "nested" rfl rfl
      (by simp [evalNode, evalDispatch, evalBlockBody, dictGet, dictSet,
        Value.span, Value.withSpan, Node.span, exceptBindOk, exceptBindErr,
        exceptThrowDef, exceptPureDef, exceptMapOk, exceptMapErr])
      (by simp [evalNode, evalDispatch, evalBlockBody, dictGet, dictSet,
        Value.span, Value.withSpan, Node.span, exceptBindOk, exceptBindErr,
        exceptThrowDef, exceptPureDef, exceptMapOk, exceptMapErr]),
   c5_block_merging.2.1 "outer" ⟨0, 5⟩ [] ⟨0, 70⟩ "nested" "nested" ⟨10, 16⟩
      ⟨40, 46⟩ [.identifier "y" ⟨17, 18⟩] [.identifier "y" ⟨47, 48⟩]
      [.attribute "a" ⟨21, 22⟩ (.literal (.integer 1 none) ⟨25, 26⟩) ⟨21, 26⟩]
      [.attribute "a" ⟨51, 52⟩ (.literal (.integer 2 none) ⟨55, 56⟩) ⟨51, 56⟩]
      ⟨10, 30⟩ ⟨40, 60⟩ [[]]
      (.object [("a", .integer 1 (some ⟨25, 26⟩))] (some ⟨10, 30⟩))
      (.object [("a", .integer 2 (some ⟨55, 56⟩))] (some ⟨40, 60⟩)) [] []
      "nested" "y" []
      (by simp [blockKeys])
      (by simp [blockKeys])
      (by simp [weaveOrphan, lastOf, dropLastOf])
      (by simp [evalNode, evalDispatch, evalBlockBody, dictGet, dictSet,
        Value.span, Value.withSpan, Node.span, exceptBindOk, exceptBindErr,
        exceptThrowDef, exceptPureDef, exceptMapOk, exceptMapErr])
      (by simp [evalNode, evalDispatch, evalBlockBody, dictGet, dictSet,
        Value.span, Value.withSpan, Node.span, exceptBindOk, exceptBindErr,
        exceptThrowDef, exceptPureDef, exceptMapOk, exceptMapErr]),
   c5_block_merging.2.2.1 "t" ⟨0, 1⟩ [] ⟨0, 9⟩ "a" ⟨2, 3⟩ ⟨6, 7⟩
      (.literal (.integer 1 none) ⟨4, 5⟩) (.literal (.integer 2 none) ⟨8, 9⟩)
      ⟨2, 5⟩ ⟨6, 9⟩ [[]]
      (.integer 1 (some ⟨4, 5⟩)) (.integer 2 (some ⟨8, 9⟩))
      [("a", .integer 1 (some ⟨4, 5⟩))] [("a", .integer 2 (some ⟨8, 9⟩))]
      (by simp [evalNode, evalDispatch, dictSet, Value.span, Value.withSpan,
        Node.span, exceptBindOk, exceptPureDef])
      (by simp [evalNode, evalDispatch, dictSet, Value.span, Value.withSpan,
        Node.span, exceptBindOk, exceptPureDef]),
   c5_block_merging.2.2.2 "t" ⟨0, 1⟩ [] ⟨0, 9⟩ "a" ⟨2, 3⟩
      (.literal (.integer 1 none) ⟨4, 5⟩) ⟨2, 5⟩ ⟨6, 7⟩ [] ⟨6, 9⟩ [[]]
      (.integer 1 (some ⟨4, 5⟩)) (.object [] (some ⟨6, 9⟩))
      [("a", .integer 1 (some ⟨4, 5⟩))] []
      (by simp [evalNode, evalDispatch, dictSet, Value.span, Value.withSpan,
        Node.span, exceptBindOk, exceptPureDef])
      (by simp [Value.isArray])
      (by simp [evalNode, evalDispatch, evalBlockBody, Value.span,
        Value.withSpan, Node.span, exceptBindOk, exceptPureDef])⟩

/-- Numeric value classes (`Integer`, `Float`), whose `__equals__`
compares across the pair numerically. -/
def Value.isNumericType : Value → Bool
  | .integer _ _ => true
  | .float _ _ => true
  | _ => false

/-- `__not_equals__` lives on the `Value` base class, so the operator table
resolves `!=` for every left operand. -/
theorem hasBinaryMethod_ne (a : Value) : a.hasBinaryMethod .ne = true := by
  cases a <;> simp [Value.hasBinaryMethod]

/-- The operator table resolves `==` exactly on the classes defining
`__equals__`. -/
theorem hasBinaryMethod_eq (a : Value) : a.hasBinaryMethod .eq = a.hasEqualsMethod := by
  cases a <;> simp [Value.hasBinaryMethod, Value.hasEqualsMethod]

/-- C7 (amended): for concrete (non-`Unknown`) operands, `a != b` always
succeeds and returns a `Boolean` (the negation of `__equals__` when the
left operand's class defines it, `Boolean(True)` otherwise); `a == b`
succeeds exactly when the left operand is an `Integer`, `Float`, `String`
or `Boolean` (the classes defining `__equals__`) and raises
`binary_expression::unsupported_operator` otherwise (in particular for
`Null`, `Array` and `Object` left operands); where `==` succeeds, it is
`Bool(true)` exactly when `!=` is `Bool(false)`; and operands of different
type names compare as unequal — `==` false, `!=` true — except for
`Integer`/`Float` pairs, which compare numerically. -/
theorem c7_equality_amended :
    (∀ (opSp : SourceSpan) (l r : Node) (sp : SourceSpan) (scope : Scope)
        (a : Value) (f1 : Frame) (b : Value) (f2 : Frame),
      evalNode l scope = .ok (a, f1) →
      evalNode r (f1 :: scope.tail) = .ok (b, f2) →
      a.isUnknown = false →
      b.isUnknown = false →
      (evalNode (.binaryExpression .ne opSp l r sp) scope
          = .ok (.boolean (Value.notEqualsBool a b) (some sp), f2))
      ∧ (a.hasEqualsMethod = true →
          evalNode (.binaryExpression .eq opSp l r sp) scope
            = .ok (.boolean (a.equalsBool b) (some sp), f2))
      ∧ (a.hasEqualsMethod = false →
          evalNode (.binaryExpression .eq opSp l r sp) scope
            = .error (.diagnostic
                "pyhcl2::evaluator::binary_expression::unsupported_operator")))
    ∧
    (∀ (a b : Value), a.hasEqualsMethod = true →
      Value.notEqualsBool a b = !a.equalsBool b)
    ∧
    (∀ (a b : Value),
      a.isUnknown = false → b.isUnknown = false →
      a.typeName ≠ b.typeName →
      ¬(a.isNumericType = true ∧ b.isNumericType = true) →
      a.equalsBool b = false ∧ Value.notEqualsBool a b = true) := by
  refine ⟨?_, ?_, ?_⟩
  · intro opSp l r sp scope a f1 b f2 h1 h2 ha hb
    refine ⟨?_, ?_, ?_⟩
    · rw [evalNode.eq_def]
      simp only [evalDispatch]
      rw [evalBinaryExpression.eq_def]
      rw [h1]
      simp only [exceptBindOk, ha, Bool.false_eq_true, if_false,
        hasBinaryMethod_ne, if_true]
      rw [h2]
      simp only [exceptBindOk, hb, Bool.false_eq_true, if_false]
      simp [Value.applyBinary, exceptBindOk, exceptPureDef, Value.span,
        Value.withSpan, Node.span]
    · intro he
      rw [evalNode.eq_def]
      simp only [evalDispatch]
      rw [evalBinaryExpression.eq_def]
      rw [h1]
      simp only [exceptBindOk, ha, Bool.false_eq_true, if_false,
        hasBinaryMethod_eq, he, if_true]
      rw [h2]
      simp only [exceptBindOk, hb, Bool.false_eq_true, if_false]
      simp [Value.applyBinary, he, exceptBindOk, exceptPureDef, Value.span,
        Value.withSpan, Node.span]
    · intro he
      rw [evalNode.eq_def]
      simp only [evalDispatch]
      rw [evalBinaryExpression.eq_def]
      rw [h1]
      simp only [exceptBindOk, ha, Bool.false_eq_true, if_false,
        hasBinaryMethod_eq, he, if_true]
      rw [h2]
      simp [exceptBindOk, exceptBindErr, exceptThrowDef]
  · intro a b he
    simp [Value.notEqualsBool, he]
  · intro a b ha hb ht hn
    cases a <;> cases b <;>
      simp_all [Value.typeName, Value.isUnknown, Value.isNumericType,
        Value.equalsBool, Value.notEqualsBool, Value.hasEqualsMethod,
        IntegerOps.equalsBool, FloatOps.equalsBool, StringOps.equalsBool,
        BooleanOps.equalsBool]

/-- C7 (counterexample): `null == null` does not succeed — the `Null` class
defines no `__equals__`, so the evaluator raises
`binary_expression::unsupported_operator`; and `1 == 1.0`, whose operands
have different type names, yields `Bool(true)` rather than the claimed
`Bool(false)`. -/
theorem c7_counterexample :
    evalNode (.binaryExpression .eq ⟨5, 7⟩ (.literal (.null none) ⟨0, 4⟩)
        (.literal (.null none) ⟨8, 12⟩) ⟨0, 12⟩) [[]]
      = .error (.diagnostic "pyhcl2::evaluator::binary_expression::unsupported_operator")
    ∧ evalNode (.binaryExpression .eq ⟨2, 4⟩ (.literal (.integer 1 none) ⟨0, 1⟩)
        (.literal (.float 1 none) ⟨5, 8⟩) ⟨0, 8⟩) [[]]
      = .ok (.boolean true (some ⟨0, 8⟩), [])
    ∧ Value.typeName (.integer 1 none) ≠ Value.typeName (.float 1 none) := by
  refine ⟨?_, ?_, by simp [Value.typeName]⟩
  · simp [evalNode, evalDispatch, evalBinaryExpression, Value.isUnknown,
      Value.span, Value.withSpan, Node.span, Value.hasBinaryMethod,
      exceptBindOk, exceptBindErr, exceptThrowDef, exceptPureDef, exceptMapOk,
      exceptMapErr]
  · simp [evalNode, evalDispatch, evalBinaryExpression, Value.isUnknown,
      Value.span, Value.withSpan, Node.span, Value.hasBinaryMethod,
      Value.applyBinary, Value.equalsBool, Value.hasEqualsMethod,
      IntegerOps.equalsBool, exceptBindOk, exceptBindErr, exceptThrowDef,
      exceptPureDef, exceptMapOk, exceptMapErr]

/-- C7 (witness): the amended theorem applied to the literals `"x" != 1`
and `"x" == 1` (operands of different, non-numeric types). -/
theorem c7_equality_amended_witness :
    evalNode (.binaryExpression .ne ⟨2, 4⟩ (.literal (.string "x" none) ⟨0, 1⟩)
        (.literal (.integer 1 none) ⟨5, 6⟩) ⟨0, 6⟩) [[]]
      = .ok (.boolean (Value.notEqualsBool (.string "x" (some ⟨0, 1⟩))
          (.integer 1 (some ⟨5, 6⟩))) (some ⟨0, 6⟩), [])
    ∧ Value.notEqualsBool (.string "x" (some ⟨0, 1⟩)) (.integer 1 (some ⟨5, 6⟩))
        = !(Value.equalsBool (.string "x" (some ⟨0, 1⟩)) (.integer 1 (some ⟨5, 6⟩)))
    ∧ (Value.equalsBool (.string "x" none) (.integer 1 none) = false
        ∧ Value.notEqualsBool (.string "x" none) (.integer 1 none) = true) :=
  ⟨(c7_equality_amended.1 ⟨2, 4⟩ (.literal (.string "x" none) ⟨0, 1⟩)
      (.literal (.integer 1 none) ⟨5, 6⟩) ⟨0, 6⟩ [[]]
      (.string "x" (some ⟨0, 1⟩)) [] (.integer 1 (some ⟨5, 6⟩)) []
      (by simp [evalNode, evalDispatch, Value.span, Value.withSpan, Node.span,
        exceptBindOk, exceptPureDef])
      (by simp [evalNode, evalDispatch, Value.span, Value.withSpan, Node.span,
        exceptBindOk, exceptPureDef])
      rfl rfl).1,
   c7_equality_amended.2.1 (.string "x" (some ⟨0, 1⟩)) (.integer 1 (some ⟨5, 6⟩)) rfl,
   c7_equality_amended.2.2 (.string "x" none) (.integer 1 none) rfl rfl
      (by simp [Value.typeName]) (by simp [Value.isNumericType])⟩
